import Mathlib

/-!
Verification of the plecost report-serialization module
(`plecost_lib/libs/reporters.py`).

The module maps an in-memory scan result (`PlecostResults`) to a JSON or an
XML document and writes it to a file whose format is selected from the
extension of the output filename, chosen by `get_reporter`.

The embedding below translates the Python source:

* `Datetime.strftime` models the fragment of `datetime.strftime` used by the
  source (directives `%H %M %S %m %d %Y %%`, zero padded).
* `splitext` models `os.path.splitext` (POSIX: separator `/`), following the
  CPython algorithm: split at the last dot of the final path component,
  except that a run of leading dots never begins an extension.
* `ReporterJSON.generate` / `ReporterXML.generate` are modelled as the
  document value the Python method builds and serializes; the file write
  itself is abstracted, and its resource behaviour is modelled separately by
  the `fileEvents` traces.
-/

/-- A Python runtime value, as far as the dynamic typing of the module is
observable: the constructor argument of `Reporter.__init__` may be any value,
and `NotImplemented` is a distinguished non-callable singleton. -/
inductive PyValue where
  | pyStr (s : String)
  | pyInt (n : Int)
  | pyBool (b : Bool)
  | pyNone
  | notImplemented
deriving DecidableEq, Repr

/-- Model of `str(type(v))`, as interpolated by the `%s` directive applied
to `type(v)` in CPython. -/
def PyValue.typeName : PyValue → String
  | .pyStr _ => "<class \x27str\x27>"
  | .pyInt _ => "<class \x27int\x27>"
  | .pyBool _ => "<class \x27bool\x27>"
  | .pyNone => "<class \x27NoneType\x27>"
  | .notImplemented => "<class \x27NotImplementedType\x27>"

/-- Model of `type(v).__name__`, as used in CPython not-callable error
messages. -/
def PyValue.className : PyValue → String
  | .pyStr _ => "str"
  | .pyInt _ => "int"
  | .pyBool _ => "bool"
  | .pyNone => "NoneType"
  | .notImplemented => "NotImplementedType"

/-- Holds exactly when `isinstance(v, str)` holds in Python. -/
def PyValue.isStr : PyValue → Bool
  | .pyStr _ => true
  | _ => false

/-- Python exceptions the module can raise. -/
inductive PyError where
  | typeError (msg : String)
  | notImplementedError (msg : String)
  | raised (v : PyValue)
deriving DecidableEq, Repr

/-- Python call semantics restricted to the values of `PyValue`: none of
them is callable, so a call raises `TypeError`. This models the evaluation
of `NotImplemented()` in `Reporter.generate`. -/
def PyValue.call (v : PyValue) (_args : List PyValue) : Except PyError PyValue :=
  .error (.typeError ("\x27" ++ v.className ++ "\x27 object is not callable"))

/-- Modelled from the spec: the domain error raised by `get_reporter` for an
unsupported report format; the class itself lives in
`plecost_lib/libs/exceptions.py`, which is not part of this excerpt. The
spec describes it as a domain error carrying the offending extension in its
message. -/
structure PlecostInvalidReportFormat where
  message : String
deriving DecidableEq, Repr

/-- The data consumed by the writers: a naive datetime, as produced by the
scan phase and consumed through `strftime`. -/
structure Datetime where
  year : Nat
  month : Nat
  day : Nat
  hour : Nat
  minute : Nat
  second : Nat
deriving DecidableEq, Repr

/-- Zero-pad the decimal rendering of `n` to width `w`. -/
def padZero (w : Nat) (n : Nat) : String :=
  let s := toString n
  if s.length < w then String.mk (List.replicate (w - s.length) '0') ++ s else s

/-- Process a `strftime` format string: `%` directives used by the source
(`%H %M %S %m %d %Y %%`); any other character is copied through. -/
def strftimeAux (dt : Datetime) : List Char → List Char
  | [] => []
  | '%' :: c :: rest =>
    (match c with
     | 'H' => (padZero 2 dt.hour).data
     | 'M' => (padZero 2 dt.minute).data
     | 'S' => (padZero 2 dt.second).data
     | 'm' => (padZero 2 dt.month).data
     | 'd' => (padZero 2 dt.day).data
     | 'Y' => (padZero 4 dt.year).data
     | '%' => ['%']
     | other => ['%', other]) ++ strftimeAux dt rest
  | c :: rest => c :: strftimeAux dt rest

/-- Model of CPython `datetime.strftime` on the directives the source
uses. -/
def Datetime.strftime (dt : Datetime) (fmt : String) : String :=
  String.mk (strftimeAux dt fmt.data)

/-- The `wordpress_info` field of a `PlecostResults`: detected and latest
platform version. -/
structure WordpressInfo where
  current_version : String
  latest_version : String
deriving DecidableEq, Repr

/-- One plugin finding of the scan, as read by the writers. -/
structure PluginFinding where
  plugin_name : String
  current_version : String
  latest_version : String
  plugin_uri : String
  is_outdated : Bool
  cves : List String
  exploits : List String
deriving DecidableEq, Repr

/-- The scan result handed to `generate` (called `info` in the source). -/
structure PlecostResults where
  target : String
  start_time : Datetime
  end_time : Datetime
  wordpress_info : WordpressInfo
  plugins : List PluginFinding
deriving DecidableEq, Repr

/-- JSON values, with objects as key-value lists in insertion order
(CPython dicts preserve insertion order, and `json.dump` emits keys in that
order). -/
inductive JsonValue where
  | str (s : String) : JsonValue
  | arr (elems : List JsonValue) : JsonValue
  | obj (fields : List (String × JsonValue)) : JsonValue
deriving Repr

/-- The keys of a JSON object, in order; `[]` on non-objects. -/
def JsonValue.objKeys : JsonValue → List String
  | .obj fields => fields.map Prod.fst
  | _ => []

/-- Look a key up in a JSON object. -/
def jsonLookup : JsonValue → String → Option JsonValue
  | .obj fields, k => fields.lookup k
  | _, _ => none

/-- An XML element as built by `xml.etree.ElementTree`: tag, attributes in
insertion order, optional text, child elements in insertion order. -/
inductive XmlElement where
  | mk (tag : String) (attrib : List (String × String))
       (text : Option String) (children : List XmlElement)

/-- The tag of the element. -/
def XmlElement.tag : XmlElement → String
  | .mk t _ _ _ => t

/-- The attributes of the element, in insertion order. -/
def XmlElement.attrib : XmlElement → List (String × String)
  | .mk _ a _ _ => a

/-- The text of the element, `none` when never assigned. -/
def XmlElement.text : XmlElement → Option String
  | .mk _ _ t _ => t

/-- The child elements, in insertion order. -/
def XmlElement.children : XmlElement → List XmlElement
  | .mk _ _ _ c => c

/-- The `Reporter` abstract class: its only state is the private
`__output_filename` set by `__init__`, exposed read-only through the
`output_filename` property. -/
structure Reporter where
  output_filename : String
deriving DecidableEq, Repr

/-- Model of `Reporter.__init__`: rejects any non-string `output_filename`
with a `TypeError` whose message interpolates `type(output_filename)`, else
stores the filename. -/
def Reporter.init (output_filename : PyValue) : Except PyError Reporter :=
  match output_filename with
  | .pyStr s => .ok ⟨s⟩
  | v => .error (.typeError ("Expected basestring, got \x27" ++ v.typeName ++ "\x27 instead"))

/-- The class `ReporterJSON` inherits `__init__` from `Reporter`
unchanged. -/
def ReporterJSON.init : PyValue → Except PyError Reporter := Reporter.init

/-- The class `ReporterXML` inherits `__init__` from `Reporter`
unchanged. -/
def ReporterXML.init : PyValue → Except PyError Reporter := Reporter.init

/-- Model of `Reporter.generate` (the abstract base body):
`raise NotImplemented()`. The call `NotImplemented()` is evaluated first;
since `NotImplemented` is not callable it raises `TypeError`, which
propagates; had the call succeeded, its result would have been raised. -/
def Reporter.generate (_self : Reporter) (_info : PlecostResults) : Except PyError PyValue :=
  match PyValue.call PyValue.notImplemented [] with
  | .ok exc => .error (.raised exc)
  | .error e => .error e

/-- The body of the per-plugin loop of `ReporterJSON.generate`: the dict
`json_plugin`, keys in assignment order. -/
def jsonPlugin (plugin : PluginFinding) : JsonValue :=
  .obj [("plugin_name", .str plugin.plugin_name),
        ("current_version", .str plugin.current_version),
        ("last_version", .str plugin.latest_version),
        ("url", .str plugin.plugin_uri),
        ("outdated", .str (if plugin.is_outdated then "Yes" else "No")),
        ("cves", .arr (plugin.cves.map JsonValue.str)),
        ("exploits", .arr (plugin.exploits.map JsonValue.str))]

/-- Model of `ReporterJSON.generate`: the dict `js_info` passed to
`json.dump`, keys in assignment order; `plugins` collects `jsonPlugin` over
`info.plugins` in iteration order. -/
def ReporterJSON.generate (info : PlecostResults) : JsonValue :=
  .obj [("target", .str info.target),
        ("start_time", .str (info.start_time.strftime "%H-%m-%Y %H:%M:%S")),
        ("end_time", .str (info.end_time.strftime "%H-%m-%Y %H:%M:%S")),
        ("wordpress", .obj [("current_version", .str info.wordpress_info.current_version),
                            ("last_version", .str info.wordpress_info.latest_version)]),
        ("plugins", .arr (info.plugins.map jsonPlugin))]

/-- The body of the per-plugin loop of `ReporterXML.generate`: the
`plugin` element with its four attributes in `set` order, text
`plugin_name`, and — each guarded by `if plugin.cves:` exactly as in the
source — a `cves` child (one `cve` per entry) and an `exploits` child (one
child per entry, itself tagged `exploits`). -/
def pluginToXml (plugin : PluginFinding) : XmlElement :=
  .mk "plugin"
    [("current_version", plugin.current_version),
     ("last_version", plugin.latest_version),
     ("url", plugin.plugin_uri),
     ("outdated", if plugin.is_outdated then "Yes" else "No")]
    (some plugin.plugin_name)
    ((if plugin.cves.isEmpty then []
      else [.mk "cves" [] none (plugin.cves.map (fun cve => .mk "cve" [] (some cve) []))]) ++
     (if plugin.cves.isEmpty then []
      else [.mk "exploits" [] none
              (plugin.exploits.map (fun exploit => .mk "exploits" [] (some exploit) []))]))

/-- Model of `ReporterXML.generate`: the tree passed to `ElementTree.write`
— root `libs` with `target`, `start_time`, `end_time`, `wordpress` and
`plugins` children in `SubElement` order. -/
def ReporterXML.generate (info : PlecostResults) : XmlElement :=
  .mk "libs" [] none
    [.mk "target" [] (some info.target) [],
     .mk "start_time" [] (some (info.start_time.strftime "%H-%m-%Y %H:%M:%S")) [],
     .mk "end_time" [] (some (info.end_time.strftime "%H-%m-%Y %H:%M:%S")) [],
     .mk "wordpress" [("current_version", info.wordpress_info.current_version),
                      ("last_version", info.wordpress_info.latest_version)] none [],
     .mk "plugins" [] none (info.plugins.map pluginToXml)]

/-- The index of the last occurrence of `c` in `cs`, if any. -/
def lastIndexOf : List Char → Char → Option Nat
  | [], _ => none
  | x :: xs, c =>
    match lastIndexOf xs c with
    | some n => some (n + 1)
    | none => if x = c then some 0 else none

/-- Model of `os.path.splitext` on POSIX (separator `/`), per CPython
`genericpath._splitext`: split at the last `.` that comes after the last
`/`, unless every character of the final component before that dot is
itself a dot (leading dots of a component never begin an extension). -/
def splitext (p : String) : String × String :=
  let cs := p.data
  let sepIdx : Int := match lastIndexOf cs '/' with | some n => (n : Int) | none => -1
  let dotIdx : Int := match lastIndexOf cs '.' with | some n => (n : Int) | none => -1
  if sepIdx < dotIdx then
    let start := (sepIdx + 1).toNat
    let dot := dotIdx.toNat
    if (List.range' start (dot - start)).any (fun i => cs.getD i '.' ≠ '.') then
      (String.mk (cs.take dot), String.mk (cs.drop dot))
    else (p, "")
  else (p, "")

/-- The two reporter classes; `get_reporter` returns the class itself, not
an instance. -/
inductive ReporterClass where
  | reporterJSON
  | reporterXML
deriving DecidableEq, Repr

/-- Model of `get_reporter`: take the extension computed by
`splitext(filename)[1][1:]` and look it up in a dict keyed by `xml` and
`json`; a missed lookup (`KeyError`) becomes a
`PlecostInvalidReportFormat` carrying the extension in its message. -/
def get_reporter (filename : String) : Except PlecostInvalidReportFormat ReporterClass :=
  let extension := ((splitext filename).2).drop 1
  if extension = "xml" then .ok .reporterXML
  else if extension = "json" then .ok .reporterJSON
  else .error ⟨"Report format \x27" ++ extension ++ "\x27 not found."⟩

/-- The notion of extension the specification text uses — the substring
after the last `.`, or `none` when the filename has no dot. Stated from the
words of the spec, to be compared with the `splitext`-based extraction of
the source. -/
def specExtension (s : String) : Option String :=
  match lastIndexOf s.data '.' with
  | some n => some (String.mk (s.data.drop (n + 1)))
  | none => none

/-- Events on the output file handle performed by one `generate` call.
`ReporterJSON.generate` runs `json.dump(js_info, open(self.output_filename,
"w"))`: the handle is opened inline, written, and never closed by the
source (no `with` block, no `close()` call — release is left to the garbage
collector). `ReporterXML.generate` runs `tree.write(self.output_filename,
encoding="UTF-8")`, and `ElementTree.write` opens the file inside a scoped
`with` writer that closes it on all paths. -/
inductive FileEvent where
  | fopen (mode : String)
  | fwrite
  | fclose
deriving DecidableEq, Repr

/-- The file-handle trace of `ReporterJSON.generate`: open for writing,
write, and no close anywhere in the source. -/
def ReporterJSON.fileEvents : List FileEvent := [.fopen "w", .fwrite]

/-- The file-handle trace of `ReporterXML.generate`: `ElementTree.write`
opens, writes and closes within its scoped writer. -/
def ReporterXML.fileEvents : List FileEvent := [.fopen "wb", .fwrite, .fclose]

/-- A throwaway plugin finding used as the default of `List.getD` in
order-preservation statements. -/
def defaultPluginFinding : PluginFinding := ⟨"", "", "", "", false, [], []⟩

/-- Mapping a list commutes with positional access through `List.getD`. -/
theorem getD_map_comm {α β : Type} (f : α → β) (d : α) :
    ∀ (l : List α) (n : Nat), (l.map f).getD n (f d) = f (l.getD n d)
  | [], 0 => rfl
  | [], _ + 1 => rfl
  | _ :: _, 0 => rfl
  | _ :: xs, n + 1 => getD_map_comm f d xs n

/-- C1 (counterexample): the claim reads the extension as the substring
after the last dot, so it classifies the filename ".json" as having
extension "json" and predicts `ReporterJSON`; `get_reporter`, going through
`os.path.splitext`, treats a leading dot as part of the base name, finds no
extension, and raises `PlecostInvalidReportFormat` with an empty extension
in the message. -/
theorem get_reporter_dotfile_counterexample :
    specExtension ".json" = some "json" ∧
    get_reporter ".json" = .error ⟨"Report format \x27\x27 not found."⟩ :=
  ⟨rfl, rfl⟩

/-- C1 (amended): with the extension computed as `splitext(filename)[1][1:]`
(the substring after the last dot of the final path component, where a
leading-dot run never begins an extension), `get_reporter` returns the
`ReporterJSON` class for extension "json", the `ReporterXML` class for
extension "xml", and for any other extension — differently cased or absent
included — returns the `PlecostInvalidReportFormat` error carrying that
extension; it returns a class tag, never a constructed writer instance. -/
theorem get_reporter_dispatch (filename : String) :
    (((splitext filename).2).drop 1 = "json" →
      get_reporter filename = .ok .reporterJSON) ∧
    (((splitext filename).2).drop 1 = "xml" →
      get_reporter filename = .ok .reporterXML) ∧
    (((splitext filename).2).drop 1 ≠ "json" →
      ((splitext filename).2).drop 1 ≠ "xml" →
      get_reporter filename =
        .error ⟨"Report format \x27" ++ ((splitext filename).2).drop 1 ++
                "\x27 not found."⟩) := by
  have hbody : get_reporter filename =
      (if ((splitext filename).2).drop 1 = "xml" then .ok .reporterXML
       else if ((splitext filename).2).drop 1 = "json" then .ok .reporterJSON
       else .error ⟨"Report format \x27" ++ ((splitext filename).2).drop 1 ++
                    "\x27 not found."⟩) := rfl
  refine ⟨fun h => ?_, fun h => ?_, fun h1 h2 => ?_⟩
  · rw [hbody, if_neg (by rw [h] ; decide), if_pos h]
  · rw [hbody, if_pos h]
  · rw [hbody, if_neg h2, if_neg h1]

/-- C1 (witness): the dispatch at concrete filenames — both supported
extensions, an unsupported one, a differently cased one, and a filename
with no extension. -/
theorem get_reporter_dispatch_witness :
    get_reporter "report.json" = .ok .reporterJSON ∧
    get_reporter "report.xml" = .ok .reporterXML ∧
    get_reporter "report.txt" = .error ⟨"Report format \x27txt\x27 not found."⟩ ∧
    get_reporter "report.JSON" = .error ⟨"Report format \x27JSON\x27 not found."⟩ ∧
    get_reporter "report" = .error ⟨"Report format \x27\x27 not found."⟩ :=
  ⟨(get_reporter_dispatch "report.json").1 rfl,
   (get_reporter_dispatch "report.xml").2.1 rfl,
   (get_reporter_dispatch "report.txt").2.2 (by decide) (by decide),
   (get_reporter_dispatch "report.JSON").2.2 (by decide) (by decide),
   (get_reporter_dispatch "report").2.2 (by decide) (by decide)⟩

/-- C2: the JSON document has exactly the top-level keys `target`,
`start_time`, `end_time`, `wordpress` (with keys `current_version` and
`last_version`) and `plugins`, in that order; `plugins` holds one mapping
per finding in input order, with keys exactly `plugin_name`,
`current_version`, `last_version`, `url`, `outdated` ("Yes" when
`is_outdated`, else "No"), `cves` and `exploits`, the last two always
present as (possibly empty) arrays; an empty plugins input yields an empty
`plugins` array. -/
theorem json_generate_shape (info : PlecostResults) :
    (ReporterJSON.generate info).objKeys =
      ["target", "start_time", "end_time", "wordpress", "plugins"] ∧
    jsonLookup (ReporterJSON.generate info) "target" = some (.str info.target) ∧
    jsonLookup (ReporterJSON.generate info) "wordpress" =
      some (.obj [("current_version", .str info.wordpress_info.current_version),
                  ("last_version", .str info.wordpress_info.latest_version)]) ∧
    jsonLookup (ReporterJSON.generate info) "plugins" =
      some (.arr (info.plugins.map jsonPlugin)) ∧
    (∀ plugin : PluginFinding,
      (jsonPlugin plugin).objKeys =
        ["plugin_name", "current_version", "last_version", "url",
         "outdated", "cves", "exploits"] ∧
      jsonLookup (jsonPlugin plugin) "outdated" =
        some (.str (if plugin.is_outdated then "Yes" else "No")) ∧
      jsonLookup (jsonPlugin plugin) "cves" =
        some (.arr (plugin.cves.map JsonValue.str)) ∧
      jsonLookup (jsonPlugin plugin) "exploits" =
        some (.arr (plugin.exploits.map JsonValue.str))) ∧
    jsonLookup (ReporterJSON.generate { info with plugins := [] }) "plugins" =
      some (.arr []) :=
  ⟨rfl, rfl, rfl, rfl, fun _ => ⟨rfl, rfl, rfl, rfl⟩, rfl⟩

/-- C3: the XML tree has root `libs` whose children are, in order, a
`target` element with the target URL as text, a `start_time` element, an
`end_time` element, a `wordpress` element carrying the two version
attributes with no children and no text, and a `plugins` element with one
`plugin` child per finding in input order; each `plugin` element has the
plugin name as text and attributes `current_version`, `last_version`,
`url` and `outdated` ("Yes" when outdated, else "No"). -/
theorem xml_generate_shape (info : PlecostResults) :
    (ReporterXML.generate info).tag = "libs" ∧
    (ReporterXML.generate info).children =
      [.mk "target" [] (some info.target) [],
       .mk "start_time" [] (some (info.start_time.strftime "%H-%m-%Y %H:%M:%S")) [],
       .mk "end_time" [] (some (info.end_time.strftime "%H-%m-%Y %H:%M:%S")) [],
       .mk "wordpress" [("current_version", info.wordpress_info.current_version),
                        ("last_version", info.wordpress_info.latest_version)] none [],
       .mk "plugins" [] none (info.plugins.map pluginToXml)] ∧
    (∀ plugin : PluginFinding,
      (pluginToXml plugin).tag = "plugin" ∧
      (pluginToXml plugin).text = some plugin.plugin_name ∧
      (pluginToXml plugin).attrib =
        [("current_version", plugin.current_version),
         ("last_version", plugin.latest_version),
         ("url", plugin.plugin_uri),
         ("outdated", if plugin.is_outdated then "Yes" else "No")]) :=
  ⟨rfl, rfl, fun _ => ⟨rfl, rfl, rfl⟩⟩

/-- C4: in the XML writer both the `cves` and the `exploits` blocks are
gated on `cves` being non-empty: a plugin with empty `cves` gets neither
block (its element has no children at all), exploits notwithstanding; when
the gate passes, every exploit entry becomes a child itself tagged
`exploits` with the exploit string as text. -/
theorem xml_exploits_gated_on_cves (plugin : PluginFinding) :
    (pluginToXml plugin).children.filter (fun c => c.tag == "exploits") =
      (if plugin.cves.isEmpty then []
       else [.mk "exploits" [] none
               (plugin.exploits.map
                 (fun exploit => .mk "exploits" [] (some exploit) []))]) ∧
    (pluginToXml plugin).children.filter (fun c => c.tag == "cves") =
      (if plugin.cves.isEmpty then []
       else [.mk "cves" [] none
               (plugin.cves.map (fun cve => .mk "cve" [] (some cve) []))]) := by
  cases plugin with
  | mk name cur last uri outd cves exploits => cases cves <;> exact ⟨rfl, rfl⟩

/-- C5 (counterexample): on a plugin with `cves = ["CVE-2020-1"]` and
`exploits = []` the claim predicts no `exploits` element, but the writer,
gating the exploits block on `cves` alone, emits an empty `exploits`
element next to the `cves` element. -/
theorem xml_empty_exploits_element_emitted :
    (pluginToXml ⟨"akismet", "1.0", "2.0", "http://x/akismet", true,
                  ["CVE-2020-1"], []⟩).children =
      [.mk "cves" [] none [.mk "cve" [] (some "CVE-2020-1") []],
       .mk "exploits" [] none []] ∧
    (pluginToXml ⟨"akismet", "1.0", "2.0", "http://x/akismet", true,
                  ["CVE-2020-1"], []⟩).children.any
        (fun c => c.tag == "exploits") = true :=
  ⟨rfl, rfl⟩

/-- C5 (amended): on a plugin with `cves = ["CVE-2020-1"]` and
`exploits = []`, whatever its other fields, the writer emits a `cves`
element with exactly one `cve` child whose text is "CVE-2020-1", followed
by an empty `exploits` element (no children, no text), since the exploits
block is gated on `cves` presence alone. -/
theorem xml_cves_single_entry (name cur last uri : String) (outd : Bool) :
    (pluginToXml ⟨name, cur, last, uri, outd, ["CVE-2020-1"], []⟩).children =
      [.mk "cves" [] none [.mk "cve" [] (some "CVE-2020-1") []],
       .mk "exploits" [] none []] :=
  rfl

/-- C6: both writers render `start_time` and `end_time` through the literal
format string "%H-%m-%Y %H:%M:%S"; on a concrete datetime the duplicated
hour specifier shows through — hour 14, month 05, day 3 renders as
"14-05-2020 14:30:59", with the hour where the day belongs. -/
theorem time_format_literal (info : PlecostResults) :
    jsonLookup (ReporterJSON.generate info) "start_time" =
      some (.str (info.start_time.strftime "%H-%m-%Y %H:%M:%S")) ∧
    jsonLookup (ReporterJSON.generate info) "end_time" =
      some (.str (info.end_time.strftime "%H-%m-%Y %H:%M:%S")) ∧
    (ReporterXML.generate info).children.getD 1 (.mk "" [] none []) =
      .mk "start_time" [] (some (info.start_time.strftime "%H-%m-%Y %H:%M:%S")) [] ∧
    (ReporterXML.generate info).children.getD 2 (.mk "" [] none []) =
      .mk "end_time" [] (some (info.end_time.strftime "%H-%m-%Y %H:%M:%S")) [] ∧
    Datetime.strftime ⟨2020, 5, 3, 14, 30, 59⟩ "%H-%m-%Y %H:%M:%S" =
      "14-05-2020 14:30:59" :=
  ⟨rfl, rfl, rfl, rfl, rfl⟩

/-- C7: construction accepts exactly the string inputs — a string is stored
and handed back unchanged by the read-only `output_filename` accessor, any
other value yields the `TypeError` naming the offending type — and the two
concrete reporter classes inherit this constructor unchanged. -/
theorem reporter_init_type_check :
    (∀ s : String,
      Reporter.init (.pyStr s) = .ok ⟨s⟩ ∧ (Reporter.mk s).output_filename = s) ∧
    (∀ v : PyValue, v.isStr = false →
      Reporter.init v =
        .error (.typeError
          ("Expected basestring, got \x27" ++ v.typeName ++ "\x27 instead"))) ∧
    ReporterJSON.init = Reporter.init ∧ ReporterXML.init = Reporter.init := by
  refine ⟨fun s => ⟨rfl, rfl⟩, ?_, rfl, rfl⟩
  intro v h
  cases v with
  | pyStr s => exact absurd h (by simp [PyValue.isStr])
  | pyInt n => rfl
  | pyBool b => rfl
  | pyNone => rfl
  | notImplemented => rfl

/-- C7 (witness): construction at a concrete string succeeds and at a
concrete integer fails with the interpolated type name. -/
theorem reporter_init_type_check_witness :
    Reporter.init (.pyStr "out.json") = .ok ⟨"out.json"⟩ ∧
    Reporter.init (.pyInt 7) =
      .error (.typeError
        "Expected basestring, got \x27<class \x27int\x27>\x27 instead") :=
  ⟨(reporter_init_type_check.1 "out.json").1,
   reporter_init_type_check.2.1 (.pyInt 7) rfl⟩

/-- C8: both writers are pure readers of the scan result — they are
functions of the input value producing a document, never a modified result
— and the plugins section of either output is exactly the input plugin list
mapped positionally, so the observed ordering is the input insertion
order. -/
theorem generate_reads_only_order_preserved (info : PlecostResults) :
    jsonLookup (ReporterJSON.generate info) "plugins" =
      some (.arr (info.plugins.map jsonPlugin)) ∧
    (ReporterXML.generate info).children.getD 4 (.mk "" [] none []) =
      .mk "plugins" [] none (info.plugins.map pluginToXml) ∧
    (∀ n : Nat,
      (info.plugins.map jsonPlugin).getD n (jsonPlugin defaultPluginFinding) =
        jsonPlugin (info.plugins.getD n defaultPluginFinding)) ∧
    (∀ n : Nat,
      (info.plugins.map pluginToXml).getD n (pluginToXml defaultPluginFinding) =
        pluginToXml (info.plugins.getD n defaultPluginFinding)) :=
  ⟨rfl, rfl,
   fun n => getD_map_comm jsonPlugin defaultPluginFinding info.plugins n,
   fun n => getD_map_comm pluginToXml defaultPluginFinding info.plugins n⟩

/-- C9: the file-handle trace of `ReporterJSON.generate` contains no close
event — the source opens the handle inline in the `json.dump` call with no
`with` block and no `close()` — while `ReporterXML.generate`, delegating to
`ElementTree.write`, does close within a scoped writer. -/
theorem json_generate_handle_not_closed :
    FileEvent.fclose ∉ ReporterJSON.fileEvents ∧
    FileEvent.fclose ∈ ReporterXML.fileEvents := by
  decide

/-- C10: calling `generate` on the abstract `Reporter` base raises
`TypeError` — the body evaluates `NotImplemented()`, a call on the
non-callable `NotImplemented` constant — and never a
`NotImplementedError`. -/
theorem base_generate_raises_type_error (r : Reporter) (info : PlecostResults) :
    Reporter.generate r info =
      .error (.typeError "\x27NotImplementedType\x27 object is not callable") ∧
    ∀ msg : String,
      Reporter.generate r info ≠ .error (.notImplementedError msg) := by
  refine ⟨rfl, ?_⟩
  intro msg h
  rw [show Reporter.generate r info =
        .error (.typeError "\x27NotImplementedType\x27 object is not callable")
      from rfl] at h
  exact PyError.noConfusion (Except.error.inj h)

/-- C10 (witness): the base `generate` evaluated at a concrete reporter and
a concrete scan result returns the not-callable `TypeError`. -/
theorem base_generate_raises_type_error_witness :
    Reporter.generate ⟨"out.json"⟩
        ⟨"http://example.com", ⟨2020, 1, 1, 0, 0, 0⟩, ⟨2020, 1, 1, 0, 0, 1⟩,
         ⟨"4.1", "4.7.3"⟩, []⟩ =
      .error (.typeError "\x27NotImplementedType\x27 object is not callable") :=
  (base_generate_raises_type_error _ _).1
